import Mathlib

/-!
Verification of the MCP23S17 GPIO-expander driver
(`src/RPiMCP23S17/MCP23S17.py`) against its natural-language
specification.

The driver class is embedded shallowly:

* `MCPState` holds the object attributes: those the constructor sets
  (`deviceID`, the six shadow registers, `_spimode`, `isInitialized`)
  and, as `Option Nat` fields, the three attributes the code READS but
  no code ever ASSIGNS — `bus` and `ce` (read by `open`, line 109; the
  constructor sets `_bus` / `_pin_cs` instead) and `_PIN_MCP_CS` (read
  by `_writeRegister` / `_readRegister`, lines 280 and 288). In any
  state reachable from the constructor these three are `none`, and
  reading one raises `AttributeError`, exactly as Python does; a state
  with one of them `some` is a counterfactual (a repaired object) and
  is labelled as such where used.
* The SPI transport itself is out of scope per the specification; it is
  modelled by `SpiSim`, a mock device that records the clock mode,
  answers read frames from a per-register store that write frames
  update, and can be told to fail after a given number of transfers.
  When the chip-select attribute is present, the `GPIO.output`
  chip-select toggling around a transfer is folded into the framed
  transfer; when it is absent the primitive faults before the transfer,
  as in the source.
* Every frame handed to the transport is recorded in `Sim.trace`.
* Python exceptions are modelled by `PyError`; since a Python exception
  propagates while leaving all attribute mutations made so far in
  place, every operation returns the final state TOGETHER with the
  optional error, never discarding the state.
* Python `1 << n` raises `ValueError` for negative `n`; pins are
  modelled as `Int` because the source only asserts `pin < 16`,
  with `pyShift1` reproducing the negative-shift failure.
* Python `d & ~(1 << n)` on a nonnegative `d` clears bit `n`; this is
  `pyClearBit` below (`d - (d &&& (1 <<< n))`).
-/

namespace RPiMCP

/-- Python exception kinds that the modelled code can raise. -/
inductive PyError where
  | assertionError
  | attributeError
  | valueError
  | indexError
  | transportError
  deriving Repr, DecidableEq

/-! Class-level constants of `MCP23S17`, names kept from the source. -/

def PULLUP_ENABLED : Nat := 0
def PULLUP_DISABLED : Nat := 1
def DIR_INPUT : Nat := 0
def DIR_OUTPUT : Nat := 1
def LEVEL_LOW : Nat := 0
def LEVEL_HIGH : Nat := 1

def MCP23S17_IODIRA : Nat := 0x00
def MCP23S17_IODIRB : Nat := 0x01
def MCP23S17_GPIOA : Nat := 0x12
def MCP23S17_GPIOB : Nat := 0x13
def MCP23S17_IOCON : Nat := 0x0A
def MCP23S17_GPPUA : Nat := 0x0C
def MCP23S17_GPPUB : Nat := 0x0D

def IOCON_INIT : Nat := 0x28

def MCP23S17_CMD_WRITE : Nat := 0x40
def MCP23S17_CMD_READ : Nat := 0x41

/-- The attributes of an `MCP23S17` object. The constructor (lines
90-102) sets `deviceID`, the six shadows, `spimode` and
`isInitialized`; `bus`, `ce` and `PIN_MCP_CS` are the attributes the
code reads at lines 109, 109 and 280/288 but that NO code assigns —
they are `none` from the constructor, and reading `none` is Python's
`AttributeError`. -/
structure MCPState where
  deviceID : Nat
  GPIOA : Nat
  GPIOB : Nat
  IODIRA : Nat
  IODIRB : Nat
  GPPUA : Nat
  GPPUB : Nat
  spimode : Nat
  isInitialized : Bool
  bus : Option Nat
  ce : Option Nat
  PIN_MCP_CS : Option Nat
  deriving Repr, DecidableEq

/-- State of the mock SPI transport: current clock mode, a per-register
store written by write frames and echoed back by read frames, and a
failure countdown (`some 0` means the next transfer fails; `none` means
transfers never fail). -/
structure SpiSim where
  mode : Nat
  regs : Nat → Nat
  failAfter : Option Nat

/-- The whole simulated world: driver object, transport, and the list of
frames successfully transferred so far, in order. -/
structure Sim where
  mcp : MCPState
  spi : SpiSim
  trace : List (List Nat)

/-- Mock-device response: a 3-byte frame with an even command byte is a
register write (stores byte 2 at the addressed register); an odd command
byte is a register read (answers the stored byte at response index 2,
the first two response bytes being meaningless echo). The MCP23S17 R/W
bit is bit 0 of the command byte. -/
def spiResponse (dev : SpiSim) (frame : List Nat) : SpiSim × List Nat :=
  match frame with
  | [cmd, reg, v] =>
      if cmd % 2 = 0 then
        ({ dev with regs := fun r => if r = reg then v else dev.regs r }, [0, 0, 0])
      else
        (dev, [0, 0, dev.regs reg])
  | other => (dev, other.map fun _ => 0)

/-- Decrement the failure countdown on a successful transfer. -/
def decFail : Option Nat → Option Nat
  | some (n + 1) => some n
  | o => o

/-- One full-duplex transfer (`self._spi.xfer2(frame)`), including the
chip-select assert/deassert around it when the chip-select attribute is
present. Fails when the countdown hit zero; otherwise records the frame
and returns the device response. -/
def xfer2 (s : Sim) (frame : List Nat) : Sim × Except PyError (List Nat) :=
  if s.spi.failAfter = some 0 then
    (s, .error .transportError)
  else
    let p := spiResponse { s.spi with failAfter := decFail s.spi.failAfter } frame
    ({ s with spi := p.1, trace := s.trace ++ [frame] }, .ok p.2)

/-- Source `_setSpiMode` (lines 315-318): when the transport's clock mode
differs from the requested one, set it and issue a dummy one-byte
transfer to force the clock level. -/
def setSpiMode (s : Sim) (mode : Nat) : Sim × Option PyError :=
  if s.spi.mode = mode then
    (s, none)
  else
    match xfer2 { s with spi := { s.spi with mode := mode } } [0] with
    | (s'', .ok _) => (s'', none)
    | (s'', .error e) => (s'', some e)

/-- Source `_writeRegister` (lines 274-282): assert initialized, build
the write command byte, ensure the clock mode, then read
`self._PIN_MCP_CS` to drive chip-select — an attribute the constructor
never sets (it sets `_pin_cs`), so in every reachable state this raises
`AttributeError` BEFORE the transfer. Only with the attribute present
does `[command, register, value]` reach the transport. -/
def writeRegister (s : Sim) (register value : Nat) : Sim × Option PyError :=
  if s.mcp.isInitialized = false then (s, some .assertionError) else
  match setSpiMode s s.mcp.spimode with
  | (s₁, some e) => (s₁, some e)
  | (s₁, none) =>
    match s.mcp.PIN_MCP_CS with
    | none => (s₁, some .attributeError)
    | some _ =>
      match xfer2 s₁ [MCP23S17_CMD_WRITE ||| (s.mcp.deviceID <<< 1), register, value] with
      | (s₂, .ok _) => (s₂, none)
      | (s₂, .error e) => (s₂, .some e)

/-- Source `_readRegister` (lines 284-291): assert initialized, build the
read command byte, ensure the clock mode, then read `self._PIN_MCP_CS`
(line 288) — unset, so in every reachable state this raises
`AttributeError` BEFORE the transfer. Only with the attribute present is
`[command, register, 0]` transferred and response byte 2 returned. -/
def readRegister (s : Sim) (register : Nat) : Sim × Except PyError Nat :=
  if s.mcp.isInitialized = false then (s, .error .assertionError) else
  match setSpiMode s s.mcp.spimode with
  | (s₁, some e) => (s₁, .error e)
  | (s₁, none) =>
    match s.mcp.PIN_MCP_CS with
    | none => (s₁, .error .attributeError)
    | some _ =>
      match xfer2 s₁ [MCP23S17_CMD_READ ||| (s.mcp.deviceID <<< 1), register, 0] with
      | (s₂, .ok data) =>
        match data.get? 2 with
        | some v => (s₂, .ok v)
        | none => (s₂, .error .indexError)
      | (s₂, .error e) => (s₂, .error e)

/-- Source `_readRegisterWord` (lines 293-299): two single-byte reads at
`register` and `register + 1`, combined high:low. -/
def readRegisterWord (s : Sim) (register : Nat) : Sim × Except PyError Nat :=
  if s.mcp.isInitialized = false then (s, .error .assertionError) else
  match readRegister s register with
  | (s₁, .error e) => (s₁, .error e)
  | (s₁, .ok b0) =>
    match readRegister s₁ (register + 1) with
    | (s₂, .error e) => (s₂, .error e)
    | (s₂, .ok b1) => (s₂, .ok ((b1 <<< 8) ||| b0))

/-- Source `_writeRegisterWord` (lines 301-305): low byte (`data & 0xFF`)
at `register`, then `data >> 8` (unmasked) at `register + 1`. -/
def writeRegisterWord (s : Sim) (register data : Nat) : Sim × Option PyError :=
  if s.mcp.isInitialized = false then (s, some .assertionError) else
  match writeRegister s register (data &&& 0xFF) with
  | (s₁, some e) => (s₁, some e)
  | (s₁, none) => writeRegister s₁ (register + 1) (data >>> 8)

/-- Python `1 << n`: raises `ValueError` when `n` is negative. -/
def pyShift1 (n : Int) : Except PyError Nat :=
  if n < 0 then .error .valueError else .ok (1 <<< n.toNat)

/-- Python `d & ~m` for nonnegative `d` and `m`: clears the bits of `m`
from `d`. -/
def pyClearBit (d m : Nat) : Nat := d - (d &&& m)

/-- Source `setPullupMode` (lines 125-156). Asserts `pin < 16`, the mode
enum, then `isInitialized`; selects bank A for `pin < 8` (bit position
`pin`, a `ValueError` when negative) and bank B otherwise (bit position
`pin & 0x07`); sets or clears the bit in the cached byte, writes the
byte, and only then stores it in the shadow. -/
def setPullupMode (s : Sim) (pin : Int) (mode : Nat) : Sim × Option PyError :=
  if ¬ pin < 16 then (s, some .assertionError) else
  if ¬ (mode = PULLUP_ENABLED ∨ mode = PULLUP_DISABLED) then (s, some .assertionError) else
  if s.mcp.isInitialized = false then (s, some .assertionError) else
  if pin < 8 then
    match pyShift1 pin with
    | .error e => (s, some e)
    | .ok bit =>
      match writeRegister s MCP23S17_GPPUA
          (if mode = PULLUP_ENABLED then s.mcp.GPPUA ||| bit
           else pyClearBit s.mcp.GPPUA bit) with
      | (s₁, some e) => (s₁, some e)
      | (s₁, none) =>
        ({ s₁ with mcp := { s₁.mcp with
             GPPUA := if mode = PULLUP_ENABLED then s.mcp.GPPUA ||| bit
                      else pyClearBit s.mcp.GPPUA bit } }, none)
  else
    match writeRegister s MCP23S17_GPPUB
        (if mode = PULLUP_ENABLED then s.mcp.GPPUB ||| (1 <<< (pin.toNat &&& 0x07))
         else pyClearBit s.mcp.GPPUB (1 <<< (pin.toNat &&& 0x07))) with
    | (s₁, some e) => (s₁, some e)
    | (s₁, none) =>
      ({ s₁ with mcp := { s₁.mcp with
           GPPUB := if mode = PULLUP_ENABLED then s.mcp.GPPUB ||| (1 <<< (pin.toNat &&& 0x07))
                    else pyClearBit s.mcp.GPPUB (1 <<< (pin.toNat &&& 0x07)) } }, none)

/-- Source `setDirection` (lines 158-189): same shape as
`setPullupMode` on the direction register pair; input = bit set,
output = bit cleared. -/
def setDirection (s : Sim) (pin : Int) (direction : Nat) : Sim × Option PyError :=
  if ¬ pin < 16 then (s, some .assertionError) else
  if ¬ (direction = DIR_INPUT ∨ direction = DIR_OUTPUT) then (s, some .assertionError) else
  if s.mcp.isInitialized = false then (s, some .assertionError) else
  if pin < 8 then
    match pyShift1 pin with
    | .error e => (s, some e)
    | .ok bit =>
      match writeRegister s MCP23S17_IODIRA
          (if direction = DIR_INPUT then s.mcp.IODIRA ||| bit
           else pyClearBit s.mcp.IODIRA bit) with
      | (s₁, some e) => (s₁, some e)
      | (s₁, none) =>
        ({ s₁ with mcp := { s₁.mcp with
             IODIRA := if direction = DIR_INPUT then s.mcp.IODIRA ||| bit
                       else pyClearBit s.mcp.IODIRA bit } }, none)
  else
    match writeRegister s MCP23S17_IODIRB
        (if direction = DIR_INPUT then s.mcp.IODIRB ||| (1 <<< (pin.toNat &&& 0x07))
         else pyClearBit s.mcp.IODIRB (1 <<< (pin.toNat &&& 0x07))) with
    | (s₁, some e) => (s₁, some e)
    | (s₁, none) =>
      ({ s₁ with mcp := { s₁.mcp with
           IODIRB := if direction = DIR_INPUT then s.mcp.IODIRB ||| (1 <<< (pin.toNat &&& 0x07))
                     else pyClearBit s.mcp.IODIRB (1 <<< (pin.toNat &&& 0x07)) } }, none)

/-- Source `digitalRead` (lines 191-216): asserts `isInitialized` then
`pin < 16`; calls the register-read primitive on the owning bank's port
register (which in every reachable state raises `AttributeError` before
any transfer), and only on a successful read stores the byte in the
shadow and tests the bit (`1 << pin` raises `ValueError` for a negative
pin). -/
def digitalRead (s : Sim) (pin : Int) : Sim × Except PyError Nat :=
  if s.mcp.isInitialized = false then (s, .error .assertionError) else
  if ¬ pin < 16 then (s, .error .assertionError) else
  if pin < 8 then
    match readRegister s MCP23S17_GPIOA with
    | (s₁, .error e) => (s₁, .error e)
    | (s₁, .ok v) =>
      match pyShift1 pin with
      | .error e => ({ s₁ with mcp := { s₁.mcp with GPIOA := v } }, .error e)
      | .ok bit =>
        ({ s₁ with mcp := { s₁.mcp with GPIOA := v } },
         .ok (if v &&& bit ≠ 0 then LEVEL_HIGH else LEVEL_LOW))
  else
    match readRegister s MCP23S17_GPIOB with
    | (s₁, .error e) => (s₁, .error e)
    | (s₁, .ok v) =>
      ({ s₁ with mcp := { s₁.mcp with GPIOB := v } },
       .ok (if v &&& (1 <<< (pin.toNat &&& 0x07)) ≠ 0 then LEVEL_HIGH else LEVEL_LOW))

/-- Source `digitalWrite` (lines 218-248): asserts `isInitialized`,
`pin < 16`, the level enum; computes the updated byte from the cached
port shadow, writes it, then updates the shadow. -/
def digitalWrite (s : Sim) (pin : Int) (level : Nat) : Sim × Option PyError :=
  if s.mcp.isInitialized = false then (s, some .assertionError) else
  if ¬ pin < 16 then (s, some .assertionError) else
  if ¬ (level = LEVEL_HIGH ∨ level = LEVEL_LOW) then (s, some .assertionError) else
  if pin < 8 then
    match pyShift1 pin with
    | .error e => (s, some e)
    | .ok bit =>
      match writeRegister s MCP23S17_GPIOA
          (if level = LEVEL_HIGH then s.mcp.GPIOA ||| bit
           else pyClearBit s.mcp.GPIOA bit) with
      | (s₁, some e) => (s₁, some e)
      | (s₁, none) =>
        ({ s₁ with mcp := { s₁.mcp with
             GPIOA := if level = LEVEL_HIGH then s.mcp.GPIOA ||| bit
                      else pyClearBit s.mcp.GPIOA bit } }, none)
  else
    match writeRegister s MCP23S17_GPIOB
        (if level = LEVEL_HIGH then s.mcp.GPIOB ||| (1 <<< (pin.toNat &&& 0x07))
         else pyClearBit s.mcp.GPIOB (1 <<< (pin.toNat &&& 0x07))) with
    | (s₁, some e) => (s₁, some e)
    | (s₁, none) =>
      ({ s₁ with mcp := { s₁.mcp with
           GPIOB := if level = LEVEL_HIGH then s.mcp.GPIOB ||| (1 <<< (pin.toNat &&& 0x07))
                    else pyClearBit s.mcp.GPIOB (1 <<< (pin.toNat &&& 0x07)) } }, none)

/-- Source `writeGPIO` (lines 250-260): asserts `isInitialized`, then
updates BOTH shadows from the argument (low byte masked, high byte
unmasked) BEFORE issuing the word write. -/
def writeGPIO (s : Sim) (data : Nat) : Sim × Option PyError :=
  if s.mcp.isInitialized = false then (s, some .assertionError) else
  writeRegisterWord
    { s with mcp := { s.mcp with GPIOA := data &&& 0xFF, GPIOB := data >>> 8 } }
    MCP23S17_GPIOA data

/-- Source `readGPIO` (lines 262-272): asserts `isInitialized`, reads
the 16-bit port word, refreshes both shadows, returns the word. -/
def readGPIO (s : Sim) : Sim × Except PyError Nat :=
  if s.mcp.isInitialized = false then (s, .error .assertionError) else
  match readRegisterWord s MCP23S17_GPIOA with
  | (s₁, .error e) => (s₁, .error e)
  | (s₁, .ok data) =>
    ({ s₁ with mcp := { s₁.mcp with GPIOA := data &&& 0xFF, GPIOB := data >>> 8 } },
     .ok data)

/-- Source `close` (lines 119-123): releases the transport and clears
the initialized flag. -/
def close (s : Sim) : Sim :=
  { s with mcp := { s.mcp with isInitialized := false } }

/-- The defaults loop of `open` (lines 112-115): for each index of
`range(0, 15)` — pins 0 through 14 only — set direction input then
pull-up enabled, aborting on the first error as the exception would. -/
def openLoop : Sim → List Nat → Sim × Option PyError
  | s, [] => (s, none)
  | s, i :: rest =>
    match setDirection s (Int.ofNat i) DIR_INPUT with
    | (s₁, some e) => (s₁, some e)
    | (s₁, none) =>
      match setPullupMode s₁ (Int.ofNat i) PULLUP_ENABLED with
      | (s₂, some e) => (s₂, some e)
      | (s₂, none) => openLoop s₂ rest

/-- Source `open` (lines 104-117). `_setupGPIO` configures the external
reset line (the constructor did set `_pin_reset`, so no fault there);
then `self._spi.open(self.bus, self.ce)` reads `self.bus` and
`self.ce`, attributes the constructor never sets (it sets `_bus` /
`_pin_cs`), raising `AttributeError`. Only with both present does the
bus acquisition succeed, followed by the configuration write, the
defaults loop over `range(0, 15)` and finally setting `isInitialized` —
but `_writeRegister`, `setDirection` and `setPullupMode` each assert
`isInitialized`, which is still false throughout `open`. -/
def openDrv (s : Sim) : Sim × Option PyError :=
  match s.mcp.bus with
  | none => (s, some .attributeError)
  | some _ =>
    match s.mcp.ce with
    | none => (s, some .attributeError)
    | some _ =>
      match writeRegister s MCP23S17_IOCON IOCON_INIT with
      | (s₁, some e) => (s₁, some e)
      | (s₁, none) =>
        match openLoop s₁ (List.range 15) with
        | (s₂, some e) => (s₂, some e)
        | (s₂, none) => ({ s₂ with mcp := { s₂.mcp with isInitialized := true } }, none)

/-- Constructor attribute values (lines 90-102): every shadow zero, SPI
mode `0b00`, not initialized; `bus`, `ce` and `PIN_MCP_CS` are never
assigned anywhere in the repository, so they are `none`. -/
def initialMCP (deviceID : Nat) : MCPState :=
  { deviceID := deviceID, GPIOA := 0, GPIOB := 0, IODIRA := 0, IODIRB := 0,
    GPPUA := 0, GPPUB := 0, spimode := 0, isInitialized := false,
    bus := none, ce := none, PIN_MCP_CS := none }

/-- A transport in clock mode 0 whose registers all read back `0` and
whose transfers always succeed. -/
def okSpi : SpiSim := { mode := 0, regs := fun _ => 0, failAfter := none }

/-- A freshly constructed driver on the `okSpi` transport. -/
def mkSim (deviceID : Nat) : Sim :=
  { mcp := initialMCP deviceID, spi := okSpi, trace := [] }

/-- The `mkSim` world with the initialized flag forced true and the
failure countdown set; the unset attributes stay `none` as in every
reachable state. Used to examine what each operation does once the
initialized assertions are passed. -/
def readySim (deviceID : Nat) (failAfter : Option Nat) : Sim :=
  { mcp := { initialMCP deviceID with isInitialized := true },
    spi := { okSpi with failAfter := failAfter }, trace := [] }

/-- An initialized driver (unset attributes still `none`) on a
never-failing transport whose registers all read back the byte `b`. -/
def regsSim (deviceID b : Nat) : Sim :=
  { mcp := { initialMCP deviceID with isInitialized := true },
    spi := { mode := 0, regs := fun _ => b, failAfter := none }, trace := [] }

/-- COUNTERFACTUAL state: the driver as a repaired constructor would
leave it — initialized, with the chip-select attribute `_PIN_MCP_CS`
actually set — so that register writes reach the transport. No state of
the source's object ever looks like this; it is used only to show what
the defaults loop of `open` would do (claim C2's hypothetical count). -/
def repairedSim (deviceID : Nat) : Sim :=
  { mcp := { initialMCP deviceID with isInitialized := true, PIN_MCP_CS := some 0 },
    spi := okSpi, trace := [] }

/-! Helper lemmas. -/

lemma xfer2_mcp (s : Sim) (frame : List Nat) : (xfer2 s frame).1.mcp = s.mcp := by
  unfold xfer2
  split <;> rfl

lemma setSpiMode_mcp (s : Sim) (m : Nat) : (setSpiMode s m).1.mcp = s.mcp := by
  unfold setSpiMode
  split
  · rfl
  · split
    next s'' r heq =>
      have h := xfer2_mcp { s with spi := { s.spi with mode := m } } [0]
      rw [heq] at h
      exact h
    next s'' e heq =>
      have h := xfer2_mcp { s with spi := { s.spi with mode := m } } [0]
      rw [heq] at h
      exact h

lemma writeRegister_mcp (s : Sim) (r v : Nat) :
    (writeRegister s r v).1.mcp = s.mcp := by
  unfold writeRegister
  split
  · rfl
  · split
    next s₁ e heq =>
      have h := setSpiMode_mcp s s.mcp.spimode
      rw [heq] at h
      exact h
    next s₁ heq =>
      have h₁ := setSpiMode_mcp s s.mcp.spimode
      rw [heq] at h₁
      split
      · exact h₁
      · split
        next s₂ r₂ heq₂ =>
          have h₂ := xfer2_mcp s₁ [MCP23S17_CMD_WRITE ||| (s.mcp.deviceID <<< 1), r, v]
          rw [heq₂] at h₂
          exact h₂.trans h₁
        next s₂ e₂ heq₂ =>
          have h₂ := xfer2_mcp s₁ [MCP23S17_CMD_WRITE ||| (s.mcp.deviceID <<< 1), r, v]
          rw [heq₂] at h₂
          exact h₂.trans h₁

/-- In every state reachable from the constructor (`PIN_MCP_CS = none`,
clock mode already matching), a register write faults with
`AttributeError` before any transfer, leaving the world unchanged. -/
lemma writeRegister_noCS (s : Sim) (r v : Nat)
    (hin : s.mcp.isInitialized = true)
    (hcs : s.mcp.PIN_MCP_CS = none)
    (hmode : s.spi.mode = s.mcp.spimode) :
    writeRegister s r v = (s, some .attributeError) := by
  simp [writeRegister, setSpiMode, hin, hcs, hmode]

/-- Same for a register read: `AttributeError` before any transfer. -/
lemma readRegister_noCS (s : Sim) (r : Nat)
    (hin : s.mcp.isInitialized = true)
    (hcs : s.mcp.PIN_MCP_CS = none)
    (hmode : s.spi.mode = s.mcp.spimode) :
    readRegister s r = (s, .error .attributeError) := by
  simp [readRegister, setSpiMode, hin, hcs, hmode]

lemma writeRegisterWord_mcp (s : Sim) (r d : Nat) :
    (writeRegisterWord s r d).1.mcp = s.mcp := by
  unfold writeRegisterWord
  split
  · rfl
  · split
    next s₁ e heq =>
      have h := writeRegister_mcp s r (d &&& 0xFF)
      rw [heq] at h
      exact h
    next s₁ heq =>
      have h₁ := writeRegister_mcp s r (d &&& 0xFF)
      rw [heq] at h₁
      exact (writeRegister_mcp s₁ (r + 1) (d >>> 8)).trans h₁

lemma setPullupMode_mcp_of_err (s : Sim) (pin : Int) (mode : Nat)
    (hne : (setPullupMode s pin mode).2 ≠ none) :
    (setPullupMode s pin mode).1.mcp = s.mcp := by
  revert hne
  unfold setPullupMode
  split
  · intro _; rfl
  · split
    · intro _; rfl
    · split
      · intro _; rfl
      · split
        · split
          · intro _; rfl
          · split
            next s₁ e heq =>
              intro _
              rw [← heq]
              exact writeRegister_mcp _ _ _
            next s₁ heq =>
              intro hne
              exact absurd rfl hne
        · split
          next s₁ e heq =>
            intro _
            rw [← heq]
            exact writeRegister_mcp _ _ _
          next s₁ heq =>
            intro hne
            exact absurd rfl hne

lemma setDirection_mcp_of_err (s : Sim) (pin : Int) (dir : Nat)
    (hne : (setDirection s pin dir).2 ≠ none) :
    (setDirection s pin dir).1.mcp = s.mcp := by
  revert hne
  unfold setDirection
  split
  · intro _; rfl
  · split
    · intro _; rfl
    · split
      · intro _; rfl
      · split
        · split
          · intro _; rfl
          · split
            next s₁ e heq =>
              intro _
              rw [← heq]
              exact writeRegister_mcp _ _ _
            next s₁ heq =>
              intro hne
              exact absurd rfl hne
        · split
          next s₁ e heq =>
            intro _
            rw [← heq]
            exact writeRegister_mcp _ _ _
          next s₁ heq =>
            intro hne
            exact absurd rfl hne

lemma digitalWrite_mcp_of_err (s : Sim) (pin : Int) (lvl : Nat)
    (hne : (digitalWrite s pin lvl).2 ≠ none) :
    (digitalWrite s pin lvl).1.mcp = s.mcp := by
  revert hne
  unfold digitalWrite
  split
  · intro _; rfl
  · split
    · intro _; rfl
    · split
      · intro _; rfl
      · split
        · split
          · intro _; rfl
          · split
            next s₁ e heq =>
              intro _
              rw [← heq]
              exact writeRegister_mcp _ _ _
            next s₁ heq =>
              intro hne
              exact absurd rfl hne
        · split
          next s₁ e heq =>
            intro _
            rw [← heq]
            exact writeRegister_mcp _ _ _
          next s₁ heq =>
            intro hne
            exact absurd rfl hne

/-! Claim theorems. -/

/-- C1: the claim says `open()` performs its side effects in order and
completes by setting the initialized flag to true. In the code,
`open()` first raises `AttributeError` reading the unset `self.bus`
(line 109) — first conjunct block; and even on an object with `bus` and
`ce` present (second block), the very first register write raises
`AssertionError` because `_writeRegister` asserts `self.isInitialized`,
which `open()` only sets at its last line. Either way `open()` never
completes, performs no register write, and leaves the flag false. -/
theorem C1_open_never_completes (d : Nat) :
    ((openDrv (mkSim d)).2 = some PyError.attributeError ∧
     (openDrv (mkSim d)).1.mcp.isInitialized = false ∧
     (openDrv (mkSim d)).1.trace = []) ∧
    ((openDrv { mkSim d with
        mcp := { initialMCP d with bus := some 0, ce := some 0 } }).2 =
       some PyError.assertionError ∧
     (openDrv { mkSim d with
        mcp := { initialMCP d with bus := some 0, ce := some 0 } }).1.mcp.isInitialized =
       false ∧
     (openDrv { mkSim d with
        mcp := { initialMCP d with bus := some 0, ce := some 0 } }).1.trace = []) :=
  ⟨⟨rfl, rfl, rfl⟩, ⟨rfl, rfl, rfl⟩⟩

/-- C2: the claim expects 33 single-byte write transactions during
`open()` with all four direction/pull-up shadows ending `0xFF`. In the
code, `open()` aborts with `AttributeError` at the unset `self.bus`
before any write (first conjunct block); and even entering the defaults
loop from the counterfactual `repairedSim` state in which writes can
reach the transport (second block), the loop is `range(0, 15)` — pins 0
through 14 — so it issues only 30 writes (31 with the config write, not
33) and leaves the bank-B shadows at `0x7F`, pin 15 untouched. -/
theorem C2_open_defaults_diverge :
    ((openDrv (mkSim 0)).2 = some PyError.attributeError ∧
     (openDrv (mkSim 0)).1.trace = [] ∧
     (openDrv (mkSim 0)).1.mcp.isInitialized = false) ∧
    ((openLoop (repairedSim 0) (List.range 15)).2 = none ∧
     (openLoop (repairedSim 0) (List.range 15)).1.mcp.IODIRA = 0xFF ∧
     (openLoop (repairedSim 0) (List.range 15)).1.mcp.IODIRB = 0x7F ∧
     (openLoop (repairedSim 0) (List.range 15)).1.mcp.GPPUA = 0xFF ∧
     (openLoop (repairedSim 0) (List.range 15)).1.mcp.GPPUB = 0x7F ∧
     (openLoop (repairedSim 0) (List.range 15)).1.trace.length = 30) :=
  ⟨⟨rfl, rfl, rfl⟩, ⟨rfl, rfl, rfl, rfl, rfl, rfl⟩⟩

/-- C3 counterexample: `writeGPIO(0x1234)` on an initialized driver.
The word write FAILS — `_writeRegister` raises `AttributeError` at the
unset `_PIN_MCP_CS` before any transfer, so the trace stays empty — yet
BOTH shadows already hold the fully-applied word (`0x34` / `0x12`),
because `writeGPIO` updates the cache before attempting the
transactions. This refutes "a failed write leaves shadow state
unchanged" for `writeGPIO`. -/
theorem C3_counterexample :
    ( writeGPIO (readySim 0 none) 0x1234).2 = some PyError.attributeError ∧
    ( writeGPIO (readySim 0 none) 0x1234).1.trace = [] ∧
    ( writeGPIO (readySim 0 none) 0x1234).1.mcp.GPIOA = 0x34 ∧
    ( writeGPIO (readySim 0 none) 0x1234).1.mcp.GPIOB = 0x12 ∧
    (readySim 0 none).mcp.GPIOA = 0 ∧
    (readySim 0 none).mcp.GPIOB = 0 :=
  ⟨rfl, rfl, rfl, rfl, rfl, rfl⟩

/-- C3 (amended): the per-pin write operations (`setPullupMode`,
`setDirection`, `digitalWrite`) update the shadow registers only after
the register-write call succeeds — any failure, including the
`AttributeError` every reachable call actually raises, leaves every
driver attribute unchanged; `writeGPIO` however assigns BOTH shadows
before attempting the word write, so after an initialized
`writeGPIO(data)` the shadows hold `data & 0xFF` / `data >> 8` whether
or not anything reached the transport. -/
theorem C3_shadow_update_discipline :
    (∀ (s : Sim) (pin : Int) (mode : Nat),
      (setPullupMode s pin mode).2 ≠ none → (setPullupMode s pin mode).1.mcp = s.mcp) ∧
    (∀ (s : Sim) (pin : Int) (dir : Nat),
      (setDirection s pin dir).2 ≠ none → (setDirection s pin dir).1.mcp = s.mcp) ∧
    (∀ (s : Sim) (pin : Int) (lvl : Nat),
      (digitalWrite s pin lvl).2 ≠ none → (digitalWrite s pin lvl).1.mcp = s.mcp) ∧
    (∀ (s : Sim) (data : Nat), s.mcp.isInitialized = true →
      ( writeGPIO s data).1.mcp.GPIOA = data &&& 0xFF ∧
      ( writeGPIO s data).1.mcp.GPIOB = data >>> 8) := by
  refine ⟨setPullupMode_mcp_of_err, setDirection_mcp_of_err, digitalWrite_mcp_of_err, ?_⟩
  intro s data hin
  simp [ writeGPIO, hin, writeRegisterWord_mcp]

/-- C3 witness: on an initialized driver every per-pin write fails (the
chip-select attribute is unset) and leaves the driver state untouched,
while `writeGPIO 0x1234` still plants `0x34` / `0x12` in the shadows. -/
theorem C3_shadow_update_discipline_witness :
    (setPullupMode (readySim 0 none) 3 PULLUP_ENABLED).1.mcp = (readySim 0 none).mcp ∧
    (setDirection (readySim 0 none) 3 DIR_OUTPUT).1.mcp = (readySim 0 none).mcp ∧
    (digitalWrite (readySim 0 none) 3 LEVEL_HIGH).1.mcp = (readySim 0 none).mcp ∧
    ( writeGPIO (readySim 0 none) 0x1234).1.mcp.GPIOA = 0x1234 &&& 0xFF ∧
    ( writeGPIO (readySim 0 none) 0x1234).1.mcp.GPIOB = 0x1234 >>> 8 :=
  ⟨C3_shadow_update_discipline.1 (readySim 0 none) 3 PULLUP_ENABLED (by decide),
   C3_shadow_update_discipline.2.1 (readySim 0 none) 3 DIR_OUTPUT (by decide),
   C3_shadow_update_discipline.2.2.1 (readySim 0 none) 3 LEVEL_HIGH (by decide),
   (C3_shadow_update_discipline.2.2.2 (readySim 0 none) 0x1234 rfl).1,
   (C3_shadow_update_discipline.2.2.2 (readySim 0 none) 0x1234 rfl).2⟩

/-- C4 counterexample: `setPullupMode(-1, PULLUP_ENABLED)` on an
initialized driver. The `assert pin < 16` passes for `-1`, and the
fault actually raised is `ValueError` from the negative shift — NOT an
assertion-style contract violation as the claim states (the no-bus, no
shadow-update half does hold here). -/
theorem C4_counterexample :
    (setPullupMode (readySim 0 none) (-1) PULLUP_ENABLED).2 = some PyError.valueError ∧
    (setPullupMode (readySim 0 none) (-1) PULLUP_ENABLED).2 ≠
      some PyError.assertionError ∧
    (setPullupMode (readySim 0 none) (-1) PULLUP_ENABLED).1.mcp = (readySim 0 none).mcp ∧
    (setPullupMode (readySim 0 none) (-1) PULLUP_ENABLED).1.trace = [] :=
  ⟨rfl, by decide, rfl, rfl⟩

/-- C4 (amended): a pin at 16 or above fails the `pin < 16` assertion in
all four per-pin operations before any transaction or shadow update. A
NEGATIVE pin, however, passes the assertion: `setPullupMode`,
`setDirection` and `digitalWrite` then raise `ValueError` from the
negative shift `1 << pin`, and `digitalRead` raises `AttributeError`
from the unset `_PIN_MCP_CS` in the register-read primitive — in every
case still before any bus transaction or shadow update, but never an
assertion-style contract violation. -/
theorem C4_out_of_range_pins :
    (∀ (s : Sim) (pin : Int) (mode dir lvl : Nat), 16 ≤ pin →
      setPullupMode s pin mode = (s, some PyError.assertionError) ∧
      setDirection s pin dir = (s, some PyError.assertionError) ∧
      digitalRead s pin = (s, Except.error PyError.assertionError) ∧
      digitalWrite s pin lvl = (s, some PyError.assertionError)) ∧
    (∀ (s : Sim) (pin : Int) (mode dir lvl : Nat), pin < 0 →
      s.mcp.isInitialized = true →
      (mode = PULLUP_ENABLED ∨ mode = PULLUP_DISABLED) →
      (dir = DIR_INPUT ∨ dir = DIR_OUTPUT) →
      (lvl = LEVEL_HIGH ∨ lvl = LEVEL_LOW) →
      setPullupMode s pin mode = (s, some PyError.valueError) ∧
      setDirection s pin dir = (s, some PyError.valueError) ∧
      digitalWrite s pin lvl = (s, some PyError.valueError) ∧
      (s.mcp.PIN_MCP_CS = none → s.spi.mode = s.mcp.spimode →
        digitalRead s pin = (s, Except.error PyError.attributeError))) := by
  constructor
  · intro s pin mode dir lvl hge
    have h16 : ¬ pin < 16 := by omega
    refine ⟨?_, ?_, ?_, ?_⟩
    · simp [setPullupMode, h16]
    · simp [setDirection, h16]
    · simp [digitalRead, h16]
    · simp [digitalWrite, h16]
  · intro s pin mode dir lvl hneg hin hm hd hl
    have h16 : pin < 16 := by omega
    have h8 : pin < 8 := by omega
    refine ⟨?_, ?_, ?_, ?_⟩
    · simp [setPullupMode, h16, h8, hin, hm, pyShift1, hneg]
    · simp [setDirection, h16, h8, hin, hd, pyShift1, hneg]
    · simp [digitalWrite, h16, h8, hin, hl, pyShift1, hneg]
    · intro hcs hmode
      have hr := readRegister_noCS s MCP23S17_GPIOA hin hcs hmode
      simp [digitalRead, hin, h16, h8, hr]

/-- C4 witness: pin 16 is rejected by the assertion; pin -1 slips past
it and gets `ValueError` from `setPullupMode` and `AttributeError` from
`digitalRead`, with the driver state untouched in each case. -/
theorem C4_out_of_range_pins_witness :
    setPullupMode (regsSim 0 0xCD) 16 PULLUP_ENABLED =
      (regsSim 0 0xCD, some PyError.assertionError) ∧
    setPullupMode (regsSim 0 0xCD) (-1) PULLUP_ENABLED =
      (regsSim 0 0xCD, some PyError.valueError) ∧
    digitalRead (regsSim 0 0xCD) (-1) =
      (regsSim 0 0xCD, Except.error PyError.attributeError) :=
  ⟨(C4_out_of_range_pins.1 (regsSim 0 0xCD) 16 PULLUP_ENABLED DIR_INPUT LEVEL_HIGH
      (by decide)).1,
   (C4_out_of_range_pins.2 (regsSim 0 0xCD) (-1) PULLUP_ENABLED DIR_INPUT LEVEL_HIGH
      (by decide) rfl (Or.inl rfl) (Or.inl rfl) (Or.inl rfl)).1,
   (C4_out_of_range_pins.2 (regsSim 0 0xCD) (-1) PULLUP_ENABLED DIR_INPUT LEVEL_HIGH
      (by decide) rfl (Or.inl rfl) (Or.inl rfl) (Or.inl rfl)).2.2.2 rfl rfl⟩

/-- C5: the claim says `digitalRead` always issues a fresh single-byte
bus read of the owning bank's port register, refreshes that bank's
shadow and returns the level. In the code, `_readRegister` raises
`AttributeError` at the unset `self._PIN_MCP_CS` (line 288) before
`self._spi.xfer2`, so `digitalRead` on an initialized driver never
issues a bus read, never refreshes a shadow, and returns no level:
evaluated at pin 5 it faults with the world unchanged and the trace
empty. -/
theorem C5_digitalRead_crashes :
    (digitalRead (regsSim 0 0xAB) 5).2 = Except.error PyError.attributeError ∧
    (digitalRead (regsSim 0 0xAB) 5).1.mcp = (regsSim 0 0xAB).mcp ∧
    (digitalRead (regsSim 0 0xAB) 5).1.trace = [] :=
  ⟨rfl, rfl, rfl⟩

/-- C6: the claim says `writeGPIO w` then `readGPIO ()` against an
echoing transport returns exactly `w`. In the code neither operation
can exchange a byte with the transport: both register primitives raise
`AttributeError` at the unset `self._PIN_MCP_CS` before any transfer,
so the round trip at `w = 0xABCD` fails twice with an empty trace and
returns nothing. -/
theorem C6_word_roundtrip_crashes :
    ( writeGPIO (readySim 0 none) 0xABCD).2 = some PyError.attributeError ∧
    ( writeGPIO (readySim 0 none) 0xABCD).1.trace = [] ∧
    ( readGPIO ( writeGPIO (readySim 0 none) 0xABCD).1).2 =
      Except.error PyError.attributeError ∧
    ( readGPIO ( writeGPIO (readySim 0 none) 0xABCD).1).1.trace = [] :=
  ⟨rfl, rfl, rfl, rfl⟩

/-- C7: the claim says two consecutive `setPullupMode(p, enabled)` calls
issue two identical bus write transactions and leave the shadow as one
call would. In the code no transaction is ever issued: each call raises
`AttributeError` at the unset `self._PIN_MCP_CS` before `xfer2`, the
trace stays empty after both calls, and the pull-up shadow is never
updated at all (the shadow store sits after the failed write). -/
theorem C7_setPullupMode_crashes :
    (setPullupMode (readySim 0 none) 3 PULLUP_ENABLED).2 = some PyError.attributeError ∧
    (setPullupMode (readySim 0 none) 3 PULLUP_ENABLED).1.trace = [] ∧
    (setPullupMode (readySim 0 none) 3 PULLUP_ENABLED).1.mcp = (readySim 0 none).mcp ∧
    (setPullupMode
      (setPullupMode (readySim 0 none) 3 PULLUP_ENABLED).1 3 PULLUP_ENABLED).2 =
      some PyError.attributeError ∧
    (setPullupMode
      (setPullupMode (readySim 0 none) 3 PULLUP_ENABLED).1 3 PULLUP_ENABLED).1.trace =
      [] ∧
    (setPullupMode
      (setPullupMode (readySim 0 none) 3 PULLUP_ENABLED).1 3 PULLUP_ENABLED).1.mcp.GPPUA =
      0 :=
  ⟨rfl, rfl, rfl, rfl, rfl, rfl⟩

/-- C8: the claim says every single-byte register write issues the frame
`[command, registerAddress, dataByte]` and every read issues
`[command, registerAddress, 0x00]` (command bytes `0x42` / `0x43` for
device address 1). In the code the command byte is computed but the
frame never reaches `self._spi.xfer2`: both primitives raise
`AttributeError` at the unset `self._PIN_MCP_CS` (lines 280 and 288)
first, so no frame is ever issued — shown here for a write of `0x55` to
`IODIRA` and a read of `IODIRA` with deviceID 1. -/
theorem C8_frame_never_issued :
    (writeRegister (readySim 1 none) MCP23S17_IODIRA 0x55).2 =
      some PyError.attributeError ∧
    (writeRegister (readySim 1 none) MCP23S17_IODIRA 0x55).1.trace = [] ∧
    (readRegister (readySim 1 none) MCP23S17_IODIRA).2 =
      Except.error PyError.attributeError ∧
    (readRegister (readySim 1 none) MCP23S17_IODIRA).1.trace = [] :=
  ⟨rfl, rfl, rfl, rfl⟩

/-- C9: with the initialized flag false — as after construction, and
again after `close()`, which clears it — every pin and port operation
raises `AssertionError` (each begins with assertions, and every assert
failure is an assertion fault regardless of the other arguments) and
leaves the driver and transport state untouched. -/
theorem C9_ops_require_initialized :
    (∀ (s : Sim) (pin : Int) (mode dir lvl : Nat) (w : Nat),
      s.mcp.isInitialized = false →
      setPullupMode s pin mode = (s, some PyError.assertionError) ∧
      setDirection s pin dir = (s, some PyError.assertionError) ∧
      digitalRead s pin = (s, Except.error PyError.assertionError) ∧
      digitalWrite s pin lvl = (s, some PyError.assertionError) ∧
      writeGPIO s w = (s, some PyError.assertionError) ∧
      readGPIO s = (s, Except.error PyError.assertionError)) ∧
    ∀ (t : Sim), (close t).mcp.isInitialized = false := by
  constructor
  · intro s pin mode dir lvl w h
    refine ⟨?_, ?_, ?_, ?_, ?_, ?_⟩
    · unfold setPullupMode
      split
      · rfl
      · split
        · rfl
        · simp [h]
    · unfold setDirection
      split
      · rfl
      · split
        · rfl
        · simp [h]
    · unfold digitalRead
      simp [h]
    · unfold digitalWrite
      simp [h]
    · unfold writeGPIO
      simp [h]
    · unfold readGPIO
      simp [h]
  · intro t
    rfl

/-- C9 witness: a freshly constructed driver rejects `setPullupMode`,
and a driver that has been closed rejects `readGPIO`. -/
theorem C9_ops_require_initialized_witness :
    setPullupMode (mkSim 0) 3 PULLUP_ENABLED = (mkSim 0, some PyError.assertionError) ∧
    readGPIO (close (readySim 0 none)) =
      (close (readySim 0 none), Except.error PyError.assertionError) :=
  ⟨(C9_ops_require_initialized.1 (mkSim 0) 3 PULLUP_ENABLED DIR_INPUT LEVEL_HIGH 0 rfl).1,
   (C9_ops_require_initialized.1 (close (readySim 0 none)) 3 PULLUP_ENABLED DIR_INPUT
      LEVEL_HIGH 0 rfl).2.2.2.2.2⟩

/-- C10 counterexample: `writeGPIO(0x1FFFF)` on an initialized driver.
The claim asserts the unmasked high data byte (`0x1FF`, exceeding 255)
is handed to the bus transport; in fact NOTHING is ever handed to the
transport — the first register write raises `AttributeError` at the
unset `_PIN_MCP_CS` and the trace stays empty — even though the bank-B
shadow does receive the unmasked `0x1FF`. -/
theorem C10_counterexample :
    ( writeGPIO (readySim 0 none) 0x1FFFF).1.trace = [] ∧
    ( writeGPIO (readySim 0 none) 0x1FFFF).2 = some PyError.attributeError ∧
    ( writeGPIO (readySim 0 none) 0x1FFFF).1.mcp.GPIOB = 0x1FF :=
  ⟨rfl, rfl, rfl⟩

/-- C10 (amended): `writeGPIO` performs no modulo-2^16 reduction on its
shadow assignments — for any argument of at least 2^16 on an
initialized driver, the bank-B shadow receives `data >> 8` unmasked (a
value of at least 256, too wide for a byte) while the bank-A shadow
always receives `data & 0xFF ≤ 255` — but no data byte is ever handed
to the bus transport: the word write fails with `AttributeError` at the
unset `_PIN_MCP_CS` before any transfer, leaving the trace unchanged
with the shadows already planted. -/
theorem C10_writeGPIO_no_masking (s : Sim) (data : Nat)
    (hin : s.mcp.isInitialized = true)
    (hcs : s.mcp.PIN_MCP_CS = none)
    (hmode : s.spi.mode = s.mcp.spimode)
    (hbig : 2 ^ 16 ≤ data) :
    ( writeGPIO s data).1.mcp.GPIOB = data >>> 8 ∧
    256 ≤ data >>> 8 ∧
    ( writeGPIO s data).1.mcp.GPIOA = data &&& 0xFF ∧
    data &&& 0xFF ≤ 255 ∧
    ( writeGPIO s data).2 = some PyError.attributeError ∧
    ( writeGPIO s data).1.trace = s.trace := by
  have hw := writeRegister_noCS
    { s with mcp := { s.mcp with GPIOA := data &&& 0xFF, GPIOB := data >>> 8 } }
    MCP23S17_GPIOA (data &&& 0xFF) (by simp [hin]) (by simp [hcs]) (by simp [hmode])
  simp only [hin] at hw
  refine ⟨?_, ?_, ?_, Nat.and_le_right, ?_, ?_⟩
  · simp [ writeGPIO, writeRegisterWord, hin, hw]
  · rw [Nat.shiftRight_eq_div_pow]
    exact (Nat.le_div_iff_mul_le (by norm_num)).mpr (by norm_num at hbig ⊢; omega)
  · simp [ writeGPIO, writeRegisterWord, hin, hw]
  · simp [ writeGPIO, writeRegisterWord, hin, hw]
  · simp [ writeGPIO, writeRegisterWord, hin, hw]

/-- C10 witness: `writeGPIO 0x1FFFF` stores the unmasked `0x1FF` in the
bank-B shadow and `0xFF` in bank A, while the transport receives
nothing. -/
theorem C10_writeGPIO_no_masking_witness :
    ( writeGPIO (readySim 0 none) 0x1FFFF).1.mcp.GPIOB = 0x1FFFF >>> 8 ∧
    256 ≤ 0x1FFFF >>> 8 ∧
    ( writeGPIO (readySim 0 none) 0x1FFFF).1.mcp.GPIOA = 0x1FFFF &&& 0xFF ∧
    0x1FFFF &&& 0xFF ≤ 255 ∧
    ( writeGPIO (readySim 0 none) 0x1FFFF).2 = some PyError.attributeError ∧
    ( writeGPIO (readySim 0 none) 0x1FFFF).1.trace = (readySim 0 none).trace :=
  C10_writeGPIO_no_masking (readySim 0 none) 0x1FFFF rfl rfl rfl (by norm_num)

end RPiMCP
